import Mathlib

/-!
Shallow embedding of the receipt orchestration service
(`src/service/receipt/receipt-service.ts`) of tiki-receipt-capacitor.

The service coordinates two external plugins (a receipt-capture plugin and a
licensing/rewards ledger SDK).  We embed the service as pure state-passing
functions over an explicit service state, with every call to an external
collaborator recorded in an event trace, and an environment `Env` supplying
the responses of the external plugins (license lookup, scan results,
persisted accounts, configured reward rules).

JavaScript `throw` is modelled by an `error` field carried in the outcome:
mutations performed before the throw persist, and no further calls happen
after it, exactly as in the sequentially-awaited TypeScript code.
-/

/-- Scan modes of the capture plugin (`ScanType` in
`receipt-account-type.ts`): the service's `scan` distinguishes exactly
`'PHYSICAL'` and `'ONLINE'`. -/
inductive ScanType where
  | PHYSICAL
  | ONLINE
deriving DecidableEq, Repr

/-- Domain events that can trigger a reward (`receipt-event.ts`). -/
inductive ReceiptEvent where
  | LINK
  | UNLINK
  | SCAN
deriving DecidableEq, Repr

/-- The provider/account-type pair read by the service:
`account.accountType.type` (provider type, optional) and
`account.accountType.key` (login key, optional). -/
structure AccountType where
  type : Option String
  key : Option String
deriving DecidableEq, Repr

/-- A linked account as the service reads it (`receipt-account.ts`):
username, optional password, account type, verification flag. -/
structure ReceiptAccount where
  username : String
  password : Option String
  accountType : AccountType
  isVerified : Bool
deriving DecidableEq, Repr

/-- A raw account object produced by the capture plugin.  Modelled from the
spec: the account model "normalizes data received from the capture plugin";
the plugin-side object carries the same credential fields. -/
structure CaptureAccount where
  username : String
  password : Option String
  providerType : Option String
  providerKey : Option String
deriving DecidableEq, Repr

/-- `ReceiptAccount.fromValue`: normalize a capture-plugin account into the
service's account model.  Modelled from the spec (`receipt-account.ts` is not
part of the sources): a field-for-field normalization. -/
def ReceiptAccount.fromValue (a : CaptureAccount) : ReceiptAccount :=
  { username := a.username
    password := a.password
    accountType := { type := a.providerType, key := a.providerKey }
    isVerified := true }

/-- A receipt produced by the capture plugin; only the fields the service
reads: OCR confidence, duplicate/fraud flags, and the external id forwarded
to `createPayable`. -/
structure Receipt where
  ocrConfidence : Rat
  duplicate : Bool
  fraudulent : Bool
  blinkReceiptId : String
deriving DecidableEq, Repr

/-- A reward-issuance record (`history-event.ts`).  Modelled from the spec:
immutable record of {amount, timestamp, event, provider}; the timestamp
(`new Date()` at creation) is outside the embedding and is omitted.  The
`name` tags the event and is what `createPayable` receives as description. -/
structure HistoryEvent where
  amount : Rat
  event : ReceiptEvent
  provider : Option String
  name : String
deriving DecidableEq, Repr

/-- The event tag used as a `HistoryEvent` name.  Modelled from the spec:
the payable is "tagged with the event name". -/
def ReceiptEvent.tag : ReceiptEvent → String
  | .LINK => "LINK"
  | .UNLINK => "UNLINK"
  | .SCAN => "SCAN"

/-- `HistoryEvent.new(amount, date, event, provider)` without the date. -/
def HistoryEvent.new (amount : Rat) (event : ReceiptEvent)
    (provider : Option String) : HistoryEvent :=
  { amount := amount, event := event, provider := provider, name := event.tag }

/-- The details payload `{receipt?, account?}` passed to the decision loop. -/
structure Details where
  receipt : Option Receipt
  account : Option ReceiptAccount

/-- A configured reward rule: `issuer(event, details)` returns a monetary
amount or `undefined` ("no payout for this rule on this event"). -/
structure RewardRule where
  issuer : ReceiptEvent → Details → Option Rat

/-- One call to an external collaborator or listener, as recorded in the
trace of a service operation. -/
inductive Call where
  /-- `tiki.sdk.getLicense()` -/
  | sdkGetLicense
  /-- `plugin.scan('PHYSICAL')` (camera scan) -/
  | pluginScanPhysical
  /-- `plugin.scan('ONLINE', account)` (online scan for an account) -/
  | pluginScanOnline (account : Option ReceiptAccount)
  /-- `plugin.logout()` with no arguments (full logout) -/
  | pluginLogoutAll
  /-- `plugin.logout(username, password, key)` for one account -/
  | pluginLogout (username : String) (password : Option String)
      (key : Option String)
  /-- `plugin.accounts()` (list persisted accounts) -/
  | pluginListAccounts
  /-- `tiki.sdk.ingest(receipt)` -/
  | sdkIngest (receipt : Receipt)
  /-- `tiki.sdk.createPayable(amount, name, receiptId?)` -/
  | createPayable (amount : Rat) (name : String) (receiptId : Option String)
  /-- invocation of the registered account listener `id` -/
  | notifyAccount (id : String) (account : ReceiptAccount)
  /-- invocation of the registered receipt listener `id` -/
  | notifyReceipt (id : String) (receipt : Receipt)
      (account : Option ReceiptAccount)
  /-- `console.warn(msg)` -/
  | warn (msg : String)
deriving DecidableEq, Repr

/-- The mutable fields of `ReceiptService`: the account cache `_accounts`,
the two listener registries (we track the registered ids, in registration
order; the callbacks themselves live outside the embedding and their
invocations are recorded in the trace), and the history log
`tiki.history`. -/
structure ServiceState where
  accounts : List ReceiptAccount
  accountListeners : List String
  receiptListeners : List String
  history : List HistoryEvent
deriving DecidableEq, Repr

/-- Responses of the external collaborators: the license lookup, the sdk id,
the receipts returned by physical and online scans, the persisted account
list, and the configured reward rules (`tiki.config.rewards`). -/
structure Env where
  license : Option Unit
  sdkId : String
  physicalScanResult : Receipt
  onlineScanResult : Option ReceiptAccount → Receipt
  pluginAccounts : List CaptureAccount
  rewards : List RewardRule

/-- Result of one service operation: the state when the operation finished
or threw, the calls it made, and the error message if it rejected. -/
structure Outcome where
  state : ServiceState
  trace : List Call
  error : Option String
deriving Repr

/-- Sequencing of operations: a thrown error stops the rest, mutations and
calls made before it persist. -/
def Outcome.andThen (o : Outcome) (f : ServiceState → Outcome) : Outcome :=
  match o.error with
  | some _ => o
  | none =>
    let r := f o.state
    { state := r.state, trace := o.trace ++ r.trace, error := r.error }

namespace ReceiptService

/-- `ReceiptService.OCR_THRESHOLD = 0.9`. -/
def OCR_THRESHOLD : Rat := 9 / 10

/-- The `console.warn` message for a duplicate/fraudulent receipt. -/
def flaggedWarning (r : Receipt) : String :=
  "Receipt ignored — duplicate: " ++ toString r.duplicate ++
    " | fraudulent: " ++ toString r.fraudulent ++
    " | confidence: " ++ toString r.ocrConfidence

/-- The `console.warn` message for a low-confidence physical scan. -/
def confidenceWarning (c : Rat) : String :=
  "Receipt ignored: Confidence: " ++ toString c

/-- The consent-missing error message thrown by the physical scan path. -/
def noLicenseError (id : String) : String :=
  "No license found for " ++ id ++ ". User must first consent to the program."

/-- One iteration of the decision loop: evaluate one rule; if it returns an
amount, call `createPayable` and append the `HistoryEvent`. -/
def processStep (event : ReceiptEvent) (details : Details)
    (o : Outcome) (reward : RewardRule) : Outcome :=
  match reward.issuer event details with
  | none => o
  | some amount =>
    let historyEvent := HistoryEvent.new amount event
      (details.account.bind fun a => a.accountType.type)
    { state := { o.state with history := o.state.history ++ [historyEvent] }
      trace := o.trace ++
        [Call.createPayable amount historyEvent.name
          (details.receipt.map fun r => r.blinkReceiptId)]
      error := o.error }

/-- `ReceiptService.process(event, details)`: iterate every configured
reward rule in order; each rule returning an amount produces one
`createPayable` call and one history append. -/
def process (env : Env) (event : ReceiptEvent) (details : Details)
    (s : ServiceState) : Outcome :=
  env.rewards.foldl (processStep event details)
    { state := s, trace := [], error := none }

/-- `ReceiptService.addReceipt(receipt, account?)`: if the receipt is
neither duplicate nor fraudulent, ingest it, run the decision loop on SCAN,
and notify every receipt listener; otherwise drop it with a warning. -/
def addReceipt (env : Env) (receipt : Receipt) (account : Option CaptureAccount)
    (s : ServiceState) : Outcome :=
  if !receipt.duplicate && !receipt.fraudulent then
    let o := process env ReceiptEvent.SCAN
      { receipt := some receipt, account := account.map ReceiptAccount.fromValue } s
    { state := o.state
      trace := Call.sdkIngest receipt :: o.trace ++
        s.receiptListeners.map fun id =>
          Call.notifyReceipt id receipt (account.map ReceiptAccount.fromValue)
      error := o.error }
  else
    { state := s, trace := [Call.warn (flaggedWarning receipt)], error := none }

/-- `ReceiptService.scan(scanType, account?)`: the PHYSICAL branch checks
the license, scans, and gates on OCR confidence; the `undefined` branch
performs the online scan for the account and adds the receipt
unconditionally; any other defined scan type matches neither branch. -/
def scan (env : Env) (scanType : Option ScanType)
    (account : Option ReceiptAccount) (s : ServiceState) : Outcome :=
  match scanType with
  | some ScanType.PHYSICAL =>
    match env.license with
    | some _ =>
      let receipt := env.physicalScanResult
      if receipt.ocrConfidence > OCR_THRESHOLD then
        let o := addReceipt env receipt none s
        { state := o.state
          trace := Call.sdkGetLicense :: Call.pluginScanPhysical :: o.trace
          error := o.error }
      else
        { state := s
          trace := [Call.sdkGetLicense, Call.pluginScanPhysical,
            Call.warn (confidenceWarning receipt.ocrConfidence)]
          error := none }
    | none =>
      { state := s, trace := [Call.sdkGetLicense]
        error := some (noLicenseError env.sdkId) }
  | some ScanType.ONLINE => { state := s, trace := [], error := none }
  | none =>
    let receipt := env.onlineScanResult account
    let o := addReceipt env receipt none s
    { state := o.state
      trace := Call.pluginScanOnline account :: o.trace
      error := o.error }

/-- `ReceiptService.addAccount(account)`: push the account onto the cache,
notify every account listener, then call `scan('ONLINE', account)`. -/
def addAccount (env : Env) (account : ReceiptAccount) (s : ServiceState) :
    Outcome :=
  let s1 := { s with accounts := s.accounts ++ [account] }
  let o := scan env (some ScanType.ONLINE) (some account) s1
  { state := o.state
    trace := (s1.accountListeners.map fun id => Call.notifyAccount id account)
      ++ o.trace
    error := o.error }

/-- `ReceiptService.removeAccount(account)`: keep only cached accounts that
differ from the given one in username AND in provider type, then notify
every account listener. -/
def removeAccount (account : ReceiptAccount) (s : ServiceState) : Outcome :=
  let s1 := { s with accounts := s.accounts.filter fun acc =>
    acc.username != account.username &&
      acc.accountType.type != account.accountType.type }
  { state := s1
    trace := s1.accountListeners.map fun id => Call.notifyAccount id account
    error := none }

/-- `ReceiptService.logout(account?)`: with no account, a full plugin logout
and an emptied cache; with an account, a plugin logout for it, removal from
the cache, and the UNLINK decision loop. -/
def logout (env : Env) (account : Option ReceiptAccount) (s : ServiceState) :
    Outcome :=
  match account with
  | none =>
    { state := { s with accounts := [] }
      trace := [Call.pluginLogoutAll]
      error := none }
  | some account =>
    (Outcome.andThen
      { state := s
        trace := [Call.pluginLogout account.username account.password
          account.accountType.key]
        error := none }
      fun s1 =>
        Outcome.andThen (removeAccount account s1) fun s2 =>
          process env ReceiptEvent.UNLINK
            { receipt := none, account := some account } s2)

/-- One iteration of the `accounts()` loop:
`addAccount(fromValue(account))` followed by
`scan('ONLINE', fromValue(account))`. -/
def accountsStep (env : Env) (o : Outcome) (captureAcc : CaptureAccount) :
    Outcome :=
  Outcome.andThen o fun s1 =>
    Outcome.andThen (addAccount env (ReceiptAccount.fromValue captureAcc) s1)
      fun s2 =>
        scan env (some ScanType.ONLINE)
          (some (ReceiptAccount.fromValue captureAcc)) s2

/-- `ReceiptService.accounts()`: fetch the persisted accounts and run
`accountsStep` for each. -/
def accountsLoad (env : Env) (s : ServiceState) : Outcome :=
  env.pluginAccounts.foldl (accountsStep env)
    { state := s, trace := [Call.pluginListAccounts], error := none }

end ReceiptService

/-- Is this call a `createPayable`? -/
def Call.isPayable : Call → Bool
  | .createPayable .. => true
  | _ => false

/-- Is this call an online plugin scan (`plugin.scan('ONLINE', ...)`)? -/
def Call.isOnlineScan : Call → Bool
  | .pluginScanOnline _ => true
  | _ => false

/-- Is this call an account-listener invocation? -/
def Call.isAccountNote : Call → Bool
  | .notifyAccount .. => true
  | _ => false

/-- Is this call a receipt-listener invocation? -/
def Call.isReceiptNote : Call → Bool
  | .notifyReceipt .. => true
  | _ => false

/-- The `HistoryEvent` a rule contributes on `(event, details)`, if any. -/
def ruleHistory (event : ReceiptEvent) (details : Details) (r : RewardRule) :
    Option HistoryEvent :=
  (r.issuer event details).map fun amount =>
    HistoryEvent.new amount event (details.account.bind fun a => a.accountType.type)

/-- The `createPayable` call a rule contributes on `(event, details)`, if
any. -/
def rulePayable (event : ReceiptEvent) (details : Details) (r : RewardRule) :
    Option Call :=
  (r.issuer event details).map fun amount =>
    Call.createPayable amount
      (HistoryEvent.new amount event
        (details.account.bind fun a => a.accountType.type)).name
      (details.receipt.map fun rc => rc.blinkReceiptId)

theorem foldl_processStep (event : ReceiptEvent) (details : Details) :
    ∀ (rules : List RewardRule) (o : Outcome),
      List.foldl (ReceiptService.processStep event details) o rules =
        { state := { o.state with
            history := o.state.history ++ rules.filterMap (ruleHistory event details) }
          trace := o.trace ++ rules.filterMap (rulePayable event details)
          error := o.error } := by
  intro rules
  induction rules with
  | nil => intro o; simp
  | cons r rs ih =>
    intro o
    simp only [List.foldl_cons, List.filterMap_cons]
    cases h : r.issuer event details with
    | none =>
      rw [ih]
      simp [ReceiptService.processStep, h, ruleHistory, rulePayable]
    | some amount =>
      rw [ih]
      simp [ReceiptService.processStep, h, ruleHistory, rulePayable,
        List.append_assoc]

theorem process_spec (env : Env) (event : ReceiptEvent) (details : Details)
    (s : ServiceState) :
    ReceiptService.process env event details s =
      { state := { s with
          history := s.history ++ env.rewards.filterMap (ruleHistory event details) }
        trace := env.rewards.filterMap (rulePayable event details)
        error := none } := by
  unfold ReceiptService.process
  rw [foldl_processStep]
  rfl

theorem length_filterMap_map {α β γ : Type} (f : α → Option β) (g : α → β → γ) :
    ∀ l : List α,
      (l.filterMap fun a => (f a).map (g a)).length =
        (l.filter fun a => (f a).isSome).length := by
  intro l
  induction l with
  | nil => rfl
  | cons a t ih =>
    cases h : f a with
    | none => simp [List.filterMap_cons, List.filter_cons, h, ih]
    | some b => simp [List.filterMap_cons, List.filter_cons, h, ih]

theorem process_trace_payable (env : Env) (event : ReceiptEvent)
    (details : Details) (s : ServiceState) :
    ∀ c ∈ (ReceiptService.process env event details s).trace,
      c.isPayable = true := by
  intro c hc
  rw [process_spec] at hc
  simp only [List.mem_filterMap] at hc
  obtain ⟨r, _, hr⟩ := hc
  unfold rulePayable at hr
  cases h : r.issuer event details with
  | none => rw [h] at hr; simp at hr
  | some amount =>
    rw [h] at hr
    rw [← Option.some.inj hr]
    rfl

/-- If a rule contributes a call, that call is a `createPayable`. -/
theorem rulePayable_isPayable (event : ReceiptEvent) (details : Details)
    (r : RewardRule) (c : Call) (h : rulePayable event details r = some c) :
    c.isPayable = true := by
  unfold rulePayable at h
  cases hi : r.issuer event details with
  | none => rw [hi] at h; simp at h
  | some amount =>
    rw [hi] at h
    rw [← Option.some.inj h]
    rfl

/-- Every call the decision loop emits is a `createPayable`. -/
theorem filter_isPayable_rulePayable (event : ReceiptEvent) (details : Details)
    (l : List RewardRule) :
    (l.filterMap (rulePayable event details)).filter Call.isPayable =
      l.filterMap (rulePayable event details) := by
  apply List.filter_eq_self.mpr
  intro c hc
  simp only [List.mem_filterMap] at hc
  obtain ⟨r, _, hr⟩ := hc
  exact rulePayable_isPayable event details r c hr

/-- A sample receipt: clean flags, confidence 1/2. -/
def sampleReceipt : Receipt :=
  { ocrConfidence := 1 / 2, duplicate := false, fraudulent := false
    blinkReceiptId := "r-1" }

/-- A sample linked account. -/
def sampleAccount : ReceiptAccount :=
  { username := "alice", password := some "pw"
    accountType := { type := some "EMAIL", key := some "gmail" }
    isVerified := false }

/-- A sample service state with one account listener and one receipt
listener registered. -/
def sampleState : ServiceState :=
  { accounts := [], accountListeners := ["L1"], receiptListeners := ["R1"]
    history := [] }

/-- A sample environment: active license, no persisted accounts, no
configured reward rules. -/
def sampleEnv : Env :=
  { license := some (), sdkId := "id-1", physicalScanResult := sampleReceipt
    onlineScanResult := fun _ => sampleReceipt, pluginAccounts := []
    rewards := [] }

/-- A duplicate-flagged receipt. -/
def flaggedReceipt : Receipt :=
  { ocrConfidence := 19 / 20, duplicate := true, fraudulent := false
    blinkReceiptId := "r-dup" }

/-- C1: a receipt with `duplicate=true` or `fraudulent=true` is dropped by
`addReceipt` with only a diagnostic warning: the state (cache, listener
registries, history) is unchanged, no `createPayable` or ingest call is
made, no reward rule effect occurs, and no receipt listener is invoked. -/
theorem addReceipt_flagged_drops (env : Env) (receipt : Receipt)
    (account : Option CaptureAccount) (s : ServiceState)
    (h : receipt.duplicate = true ∨ receipt.fraudulent = true) :
    ReceiptService.addReceipt env receipt account s =
      { state := s
        trace := [Call.warn (ReceiptService.flaggedWarning receipt)]
        error := none } := by
  unfold ReceiptService.addReceipt
  rcases h with h | h <;> simp [h]

/-- Witness for C1 at a concrete duplicate receipt. -/
theorem addReceipt_flagged_drops_witness :
    ReceiptService.addReceipt sampleEnv flaggedReceipt none sampleState =
      { state := sampleState
        trace := [Call.warn (ReceiptService.flaggedWarning flaggedReceipt)]
        error := none } :=
  addReceipt_flagged_drops sampleEnv flaggedReceipt none sampleState (Or.inl rfl)

/-- C2: the decision loop evaluates every configured rule in order with no
first-match short-circuit: its trace is exactly the `createPayable` calls of
the rules whose issuer returned an amount (one per firing rule, in rule
order), the history gains exactly one `HistoryEvent` per firing rule, rules
returning `undefined` contribute neither, and nothing else in the state
changes. -/
theorem process_fanout (env : Env) (event : ReceiptEvent) (details : Details)
    (s : ServiceState) :
    (ReceiptService.process env event details s).trace =
        env.rewards.filterMap (rulePayable event details) ∧
      (ReceiptService.process env event details s).state.history =
        s.history ++ env.rewards.filterMap (ruleHistory event details) ∧
      ((ReceiptService.process env event details s).trace.filter
          Call.isPayable).length =
        (env.rewards.filter fun r => (r.issuer event details).isSome).length ∧
      (ReceiptService.process env event details s).state.history.length =
        s.history.length +
          (env.rewards.filter fun r => (r.issuer event details).isSome).length ∧
      (ReceiptService.process env event details s).state.accounts =
        s.accounts ∧
      (ReceiptService.process env event details s).state.accountListeners =
        s.accountListeners ∧
      (ReceiptService.process env event details s).state.receiptListeners =
        s.receiptListeners ∧
      (ReceiptService.process env event details s).error = none := by
  rw [process_spec]
  refine ⟨rfl, rfl, ?_, ?_, rfl, rfl, rfl, rfl⟩
  · rw [filter_isPayable_rulePayable]
    exact length_filterMap_map (fun r => r.issuer event details)
      (fun r amount => Call.createPayable amount
        (HistoryEvent.new amount event
          (details.account.bind fun a => a.accountType.type)).name
        (details.receipt.map fun rc => rc.blinkReceiptId)) env.rewards
  · simp only [List.length_append]
    congr 1
    exact length_filterMap_map (fun r => r.issuer event details)
      (fun r amount => HistoryEvent.new amount event
        (details.account.bind fun a => a.accountType.type)) env.rewards

/-- `addReceipt` never throws: acceptance and rejection both resolve. -/
theorem addReceipt_error_none (env : Env) (receipt : Receipt)
    (account : Option CaptureAccount) (s : ServiceState) :
    (ReceiptService.addReceipt env receipt account s).error = none := by
  unfold ReceiptService.addReceipt
  split
  · simp [process_spec]
  · rfl

/-- C3: on the PHYSICAL scan path with an active license, the scanned
receipt is forwarded to `addReceipt` exactly when its OCR confidence
strictly exceeds `OCR_THRESHOLD = 9/10`; otherwise only a warning is
logged, the state is untouched, and either way no exception is thrown. -/
theorem scan_physical_threshold (env : Env) (account : Option ReceiptAccount)
    (s : ServiceState) (h : env.license = some ()) :
    ReceiptService.scan env (some ScanType.PHYSICAL) account s =
      (if env.physicalScanResult.ocrConfidence > ReceiptService.OCR_THRESHOLD
      then
        { state := (ReceiptService.addReceipt env env.physicalScanResult none s).state
          trace := Call.sdkGetLicense :: Call.pluginScanPhysical ::
            (ReceiptService.addReceipt env env.physicalScanResult none s).trace
          error := (ReceiptService.addReceipt env env.physicalScanResult none s).error }
      else
        { state := s
          trace := [Call.sdkGetLicense, Call.pluginScanPhysical,
            Call.warn (ReceiptService.confidenceWarning
              env.physicalScanResult.ocrConfidence)]
          error := none }) ∧
    (ReceiptService.scan env (some ScanType.PHYSICAL) account s).error = none := by
  have heq : ReceiptService.scan env (some ScanType.PHYSICAL) account s =
      (if env.physicalScanResult.ocrConfidence > ReceiptService.OCR_THRESHOLD
      then
        { state := (ReceiptService.addReceipt env env.physicalScanResult none s).state
          trace := Call.sdkGetLicense :: Call.pluginScanPhysical ::
            (ReceiptService.addReceipt env env.physicalScanResult none s).trace
          error := (ReceiptService.addReceipt env env.physicalScanResult none s).error }
      else
        { state := s
          trace := [Call.sdkGetLicense, Call.pluginScanPhysical,
            Call.warn (ReceiptService.confidenceWarning
              env.physicalScanResult.ocrConfidence)]
          error := none }) := by
    unfold ReceiptService.scan
    rw [h]
  refine ⟨heq, ?_⟩
  rw [heq]
  split
  · exact addReceipt_error_none env env.physicalScanResult none s
  · rfl

/-- Witness for C3 at a concrete below-threshold receipt (confidence 1/2):
the receipt is discarded with a warning and no error. -/
theorem scan_physical_threshold_witness :
    ReceiptService.scan sampleEnv (some ScanType.PHYSICAL) none sampleState =
      { state := sampleState
        trace := [Call.sdkGetLicense, Call.pluginScanPhysical,
          Call.warn (ReceiptService.confidenceWarning (1 / 2))]
        error := none } := by
  rw [(scan_physical_threshold sampleEnv none sampleState rfl).1,
    if_neg (by norm_num [sampleEnv, sampleReceipt, ReceiptService.OCR_THRESHOLD])]
  rfl

/-- C4: `scan('PHYSICAL')` with no active license rejects with the
consent-missing error naming the sdk id; only the license lookup happened —
the capture plugin's scan is never invoked, no receipt is added, and the
state is unchanged. -/
theorem scan_physical_no_license (env : Env) (account : Option ReceiptAccount)
    (s : ServiceState) (h : env.license = none) :
    ReceiptService.scan env (some ScanType.PHYSICAL) account s =
      { state := s
        trace := [Call.sdkGetLicense]
        error := some (ReceiptService.noLicenseError env.sdkId) } := by
  unfold ReceiptService.scan
  rw [h]

/-- An environment with no active consent license. -/
def noLicenseEnv : Env := { sampleEnv with license := none }

/-- Witness for C4 at a concrete unlicensed environment. -/
theorem scan_physical_no_license_witness :
    ReceiptService.scan noLicenseEnv (some ScanType.PHYSICAL) none sampleState =
      { state := sampleState
        trace := [Call.sdkGetLicense]
        error := some (ReceiptService.noLicenseError "id-1") } :=
  scan_physical_no_license noLicenseEnv none sampleState rfl

/-- `addAccount` pushes the account, notifies every account listener once,
and does nothing else: the trailing `scan('ONLINE', account)` call matches
neither branch of `scan` and is a no-op. -/
theorem addAccount_spec (env : Env) (account : ReceiptAccount)
    (s : ServiceState) :
    ReceiptService.addAccount env account s =
      { state := { s with accounts := s.accounts ++ [account] }
        trace := s.accountListeners.map fun id => Call.notifyAccount id account
        error := none } := by
  unfold ReceiptService.addAccount ReceiptService.scan
  simp

/-- The full behaviour of `logout(account)`: one plugin logout call, the
cache filtered by the conjunctive mismatch predicate, one notification per
account listener, then the UNLINK decision loop. -/
theorem logout_some_spec (env : Env) (a : ReceiptAccount) (s : ServiceState) :
    ReceiptService.logout env (some a) s =
      { state :=
          { accounts := s.accounts.filter fun acc =>
              acc.username != a.username &&
                acc.accountType.type != a.accountType.type
            accountListeners := s.accountListeners
            receiptListeners := s.receiptListeners
            history := s.history ++ env.rewards.filterMap
              (ruleHistory ReceiptEvent.UNLINK
                { receipt := none, account := some a }) }
        trace := Call.pluginLogout a.username a.password a.accountType.key ::
          ((s.accountListeners.map fun id => Call.notifyAccount id a) ++
            env.rewards.filterMap
              (rulePayable ReceiptEvent.UNLINK
                { receipt := none, account := some a }))
        error := none } := by
  unfold ReceiptService.logout Outcome.andThen ReceiptService.removeAccount
  simp [process_spec]

/-- `scan` with the defined scan type `'ONLINE'` matches neither branch
guard of `scan` and returns immediately. -/
theorem scan_online_noop (env : Env) (account : Option ReceiptAccount)
    (s : ServiceState) :
    ReceiptService.scan env (some ScanType.ONLINE) account s =
      { state := s, trace := [], error := none } := rfl

/-- An account "bob" sharing only the provider type with `sampleAccount`. -/
def bobEmail : ReceiptAccount :=
  { username := "bob", password := none
    accountType := { type := some "EMAIL", key := none }
    isVerified := false }

/-- A cache holding only `bobEmail`, no listeners, empty history. -/
def bobCache : ServiceState :=
  { accounts := [bobEmail], accountListeners := [], receiptListeners := []
    history := [] }

/-- Counterexample to C5: `bobEmail` does not match `sampleAccount` on the
identity pair (the usernames differ), yet `logout(sampleAccount)` removes it
from the cache — the removal filter drops every account agreeing in
username OR provider type, not just the identity match. -/
theorem logout_removes_non_identity_account :
    bobEmail.username ≠ sampleAccount.username ∧
    (ReceiptService.logout sampleEnv (some sampleAccount)
      bobCache).state.accounts = [] := by
  refine ⟨by decide, ?_⟩
  rw [logout_some_spec]
  rfl

/-- C5 (amended): `logout(account)` keeps exactly the cached accounts that
differ from the given account in BOTH username and provider type; every
account agreeing with it in username or in provider type (in particular the
identity-matching account) is removed, and the listener registries are
untouched. -/
theorem logout_account_removal (env : Env) (a : ReceiptAccount)
    (s : ServiceState) :
    (ReceiptService.logout env (some a) s).state.accounts =
        (s.accounts.filter fun acc =>
          acc.username != a.username &&
            acc.accountType.type != a.accountType.type) ∧
      (∀ acc : ReceiptAccount,
        acc ∈ (ReceiptService.logout env (some a) s).state.accounts ↔
          acc ∈ s.accounts ∧ acc.username ≠ a.username ∧
            acc.accountType.type ≠ a.accountType.type) ∧
      (ReceiptService.logout env (some a) s).state.accountListeners =
        s.accountListeners ∧
      (ReceiptService.logout env (some a) s).state.receiptListeners =
        s.receiptListeners ∧
      (ReceiptService.logout env (some a) s).error = none := by
  rw [logout_some_spec]
  refine ⟨rfl, ?_, rfl, rfl, rfl⟩
  intro acc
  simp [List.mem_filter, Bool.and_eq_true, bne_iff_ne]

/-- C7: `scan(undefined, account)` performs the online plugin scan for the
account and hands the resulting receipt to `addReceipt` unconditionally —
the statement holds for every environment, hence for every value of the
receipt's `ocrConfidence`; no confidence gate exists on this path. -/
theorem scan_undefined_forwards_unconditionally (env : Env)
    (account : ReceiptAccount) (s : ServiceState) :
    ReceiptService.scan env none (some account) s =
      { state := (ReceiptService.addReceipt env
          (env.onlineScanResult (some account)) none s).state
        trace := Call.pluginScanOnline (some account) ::
          (ReceiptService.addReceipt env
            (env.onlineScanResult (some account)) none s).trace
        error := (ReceiptService.addReceipt env
          (env.onlineScanResult (some account)) none s).error } := rfl

/-- C8: `logout()` with no account requests a full plugin logout and clears
the whole account cache; the listener registries and the history are
untouched, and the trace is exactly the plugin logout call — no UNLINK
processing, no `createPayable`, no listener notification. -/
theorem logout_none_clears_all (env : Env) (s : ServiceState) :
    ReceiptService.logout env none s =
      { state :=
          { accounts := []
            accountListeners := s.accountListeners
            receiptListeners := s.receiptListeners
            history := s.history }
        trace := [Call.pluginLogoutAll]
        error := none } := rfl

/-- C9: for every defined scan type other than `'PHYSICAL'` (that is,
`'ONLINE'`, the value passed by `accounts()` and `addAccount`), `scan`
resolves as a complete no-op: no plugin call, no receipt, no state change,
no error. -/
theorem scan_other_type_noop (env : Env) (st : ScanType)
    (account : Option ReceiptAccount) (s : ServiceState)
    (h : st ≠ ScanType.PHYSICAL) :
    ReceiptService.scan env (some st) account s =
      { state := s, trace := [], error := none } := by
  cases st with
  | PHYSICAL => exact absurd rfl h
  | ONLINE => rfl

/-- Witness for C9 at scan type `'ONLINE'` and a concrete account. -/
theorem scan_other_type_noop_witness :
    ReceiptService.scan sampleEnv (some ScanType.ONLINE) (some sampleAccount)
      sampleState = { state := sampleState, trace := [], error := none } :=
  scan_other_type_noop sampleEnv ScanType.ONLINE (some sampleAccount)
    sampleState (by decide)

/-- A call that is a `createPayable` is not an account notification. -/
theorem isAccountNote_eq_false_of_isPayable (c : Call)
    (h : c.isPayable = true) : c.isAccountNote = false := by
  cases c <;> simp_all [Call.isPayable, Call.isAccountNote]

/-- The decision loop's trace contains no account-listener invocation. -/
theorem filter_isAccountNote_rulePayable (event : ReceiptEvent)
    (details : Details) (l : List RewardRule) :
    (l.filterMap (rulePayable event details)).filter Call.isAccountNote =
      [] := by
  rw [List.filter_eq_nil_iff]
  intro c hc
  simp only [List.mem_filterMap] at hc
  obtain ⟨r, -, hr⟩ := hc
  simp [isAccountNote_eq_false_of_isPayable c
    (rulePayable_isPayable event details r c hr)]

/-- C10: `logout(account)` invokes every registered account listener exactly
once with that account — the notifications in its trace are exactly one per
registered listener id, in registration order, for every starting cache, in
particular when nothing matched the removal filter or the cache was
empty. -/
theorem logout_account_notifies_listeners_once (env : Env)
    (a : ReceiptAccount) (s : ServiceState) :
    (ReceiptService.logout env (some a) s).trace.filter Call.isAccountNote =
        (s.accountListeners.map fun id => Call.notifyAccount id a) ∧
      (ReceiptService.logout env (some a) s).error = none := by
  rw [logout_some_spec]
  refine ⟨?_, rfl⟩
  have h1 : ((s.accountListeners.map fun id =>
      Call.notifyAccount id a).filter Call.isAccountNote) =
      s.accountListeners.map fun id => Call.notifyAccount id a := by
    apply List.filter_eq_self.mpr
    intro c hc
    simp only [List.mem_map] at hc
    obtain ⟨id, -, rfl⟩ := hc
    rfl
  simp [List.filter_append, h1, filter_isAccountNote_rulePayable,
    Call.isAccountNote]

/-- Account-listener notifications are not online plugin scans. -/
theorem filter_isOnlineScan_notify (l : List String) (acct : ReceiptAccount) :
    ((l.map fun id => Call.notifyAccount id acct).filter Call.isOnlineScan) =
      [] := by
  rw [List.filter_eq_nil_iff]
  intro c hc
  simp only [List.mem_map] at hc
  obtain ⟨id, -, rfl⟩ := hc
  simp [Call.isOnlineScan]

/-- One `accounts()` iteration adds no online plugin scan to the trace: both
of its `scan('ONLINE', ...)` calls (the one inside `addAccount` and the
direct one) match neither branch guard of `scan`. -/
theorem accountsStep_no_online_scan (env : Env) (o : Outcome)
    (a : CaptureAccount) :
    ((ReceiptService.accountsStep env o a).trace.filter Call.isOnlineScan) =
      o.trace.filter Call.isOnlineScan := by
  unfold ReceiptService.accountsStep Outcome.andThen
  cases he : o.error with
  | some e => simp
  | none =>
    simp [addAccount_spec, scan_online_noop, List.filter_append,
      filter_isOnlineScan_notify]

/-- `accounts()` never triggers an online plugin scan, for any environment
and any starting state: every `scan('ONLINE', account)` call it makes is a
no-op. -/
theorem accountsLoad_no_online_scan (env : Env) (s : ServiceState) :
    ((ReceiptService.accountsLoad env s).trace.filter Call.isOnlineScan) =
      [] := by
  unfold ReceiptService.accountsLoad
  suffices hfold : ∀ (accs : List CaptureAccount) (o : Outcome),
      o.trace.filter Call.isOnlineScan = [] →
      ((List.foldl (ReceiptService.accountsStep env) o accs).trace.filter
        Call.isOnlineScan) = [] by
    apply hfold
    rfl
  intro accs
  induction accs with
  | nil => intro o h; exact h
  | cons a t ih =>
    intro o h
    rw [List.foldl_cons]
    apply ih
    rw [accountsStep_no_online_scan]
    exact h

/-- A first persisted capture-plugin account. -/
def captureCarol : CaptureAccount :=
  { username := "carol", password := some "pw1"
    providerType := some "EMAIL", providerKey := some "gmail" }

/-- A second persisted capture-plugin account. -/
def captureDave : CaptureAccount :=
  { username := "dave", password := some "pw2"
    providerType := some "RETAILER", providerKey := some "amazon" }

/-- An environment whose capture plugin persists two accounts. -/
def twoAccountsEnv : Env := { sampleEnv with
  pluginAccounts := [captureCarol, captureDave] }

/-- An empty account cache with one registered account listener. -/
def emptyCacheState : ServiceState :=
  { accounts := [], accountListeners := ["L1"], receiptListeners := []
    history := [] }

/-- C6 evaluated at the failing input (empty cache, two persisted accounts,
one registered account listener): the cache does get the two entries and the
listener does fire once per account, but zero online plugin scans occur —
not one per account — because every `scan('ONLINE', ...)` call made by
`accounts()`/`addAccount` matches neither branch guard of `scan`. -/
theorem accountsLoad_two_accounts_eval :
    (ReceiptService.accountsLoad twoAccountsEnv emptyCacheState).state.accounts =
        [ReceiptAccount.fromValue captureCarol,
          ReceiptAccount.fromValue captureDave] ∧
      ((ReceiptService.accountsLoad twoAccountsEnv
        emptyCacheState).trace.filter Call.isAccountNote).length = 2 ∧
      ((ReceiptService.accountsLoad twoAccountsEnv
        emptyCacheState).trace.filter Call.isOnlineScan).length = 0 ∧
      (ReceiptService.accountsLoad twoAccountsEnv emptyCacheState).error =
        none := by
  refine ⟨rfl, rfl, rfl, rfl⟩
